import Mathlib

/-!
Shallow embedding of the `zerodown` zero-downtime restart supervisor
(Fornaxian/zerodown, Go). Definitions mirror the Go source files
`zerodown.go` and `util.go` (plus the alternate `util.go` revision that
contains `Restart` and `print`). Stateful Go code is modelled by explicit
state passing and by event traces; OS facilities (signal delivery,
`os.FindProcess`, open file descriptors) are modelled as oracle parameters.
-/

namespace Zerodown

/-- OS signals used by the package (`syscall.SIGHUP` etc.). -/
inductive Sig where
  | SIGHUP
  | SIGINT
  | SIGTERM
  | SIGQUIT
  | SIGUSR1
  | SIGUSR2
  deriving DecidableEq, Repr

/-- Default of the `ReloadSignals` package variable:
`[]os.Signal{syscall.SIGHUP}`. -/
def ReloadSignalsDefault : List Sig := [.SIGHUP]

/-- Default of the `StopSignals` package variable:
`[]os.Signal{syscall.SIGINT, syscall.SIGTERM, syscall.SIGQUIT}`. -/
def StopSignalsDefault : List Sig := [.SIGINT, .SIGTERM, .SIGQUIT]

/-- Default of the `StartupFinishedSignal` package variable:
`syscall.SIGUSR1`. -/
def StartupFinishedSignalDefault : Sig := .SIGUSR1

/-- The mutable package state the role resolver touches: the
`parentPID` package variable (`var parentPID = 0`). -/
structure GState where
  parentPID : Int
  deriving DecidableEq, Repr

/-- Initial package state: `var parentPID = 0`. -/
def initialState : GState := ⟨0⟩

/-- Value of a run of decimal digit characters; `none` when the list is
empty or contains a non-digit (mirrors the digit loop of Go
`strconv.Atoi` / `strconv.ParseInt` with base 10). -/
def digitsVal : List Char → Option Nat
  | [] => none
  | [c] => if c.isDigit then some (c.toNat - '0'.toNat) else none
  | c :: rest =>
    if c.isDigit then
      match digitsVal rest with
      | some n => some ((c.toNat - '0'.toNat) * 10 ^ rest.length + n)
      | none => none
    else none

/-- Go `strconv.Atoi`: optional sign, then a nonempty run of decimal
digits, rejected when out of `int64` range. Returns `none` exactly when
Go returns a non-nil error. -/
def atoi (s : String) : Option Int :=
  match s.toList with
  | [] => none
  | c :: rest =>
    let (neg, ds) :=
      if c = '-' then (true, rest)
      else if c = '+' then (false, rest)
      else (false, c :: rest)
    match digitsVal ds with
    | none => none
    | some n =>
      let v : Int := if neg then -(n : Int) else (n : Int)
      if -(2 ^ 63) ≤ v ∧ v ≤ 2 ^ 63 - 1 then some v else none

/-- The process environment, as a partial map from variable name to
value. `os.Getenv` returns the empty string for an absent variable. -/
def getenv (env : String → Option String) (key : String) : String :=
  (env key).getD ""

/-- `IsParent` from `util.go`: parse the `PD_PARENT_PROCESS` environment
variable with `strconv.Atoi`; on success store the parsed value in the
`parentPID` package variable and return `false` (child), otherwise
return `true` (parent) leaving the state untouched. -/
def IsParent (env : String → Option String) (st : GState) : Bool × GState :=
  match atoi (getenv env "PD_PARENT_PROCESS") with
  | some parent => (false, { parentPID := parent })
  | none => (true, st)

/-- `IsChild` from `util.go`: `return !IsParent()`. -/
def IsChild (env : String → Option String) (st : GState) : Bool × GState :=
  let (p, st') := IsParent env st
  (!p, st')

/-- The role tag prefixed to every log line by `print` in `util.go`:
`Zerodown-parent` when `parentPID == 0`, `Zerodown-child` otherwise. -/
def printTag (st : GState) : String :=
  if st.parentPID = 0 then "Zerodown-parent" else "Zerodown-child"

/-! ## Supervisor trace model (`zerodown.go`) -/

/-- The three outcomes of the readiness race in `waitForChildInit`. -/
inductive RaceOutcome where
  | Ready
  | CrashedBeforeReady
  | TimedOut
  deriving DecidableEq, Repr

/-- Observable events of the parent process, in program order.
Process identifiers are `Int` (Go `int`). -/
inductive Event where
  /-- `cmd.Start()` succeeded, producing a child with this PID. -/
  | spawn (pid : Int)
  /-- `shutdownWG.Add(1)` inside `watchChild`. -/
  | wgAdd
  /-- `shutdownWG.Done()` inside `watchChild`'s goroutine. -/
  | wgDone
  /-- the goroutine sends the exited child's PID on the `stopped` channel. -/
  | stoppedSend (pid : Int)
  /-- `childProcess = cmd.Process`: the new child becomes current. -/
  | setCurrent (pid : Int)
  /-- `waitForChildInit` returned: the readiness race for `pid` resolved. -/
  | raceResolved (pid : Int) (o : RaceOutcome)
  /-- a `print` log line. -/
  | log (s : String)
  /-- `process.Signal(sig)` on the process with this PID. -/
  | sendSignal (pid : Int) (sig : Sig)
  /-- `shutdownWG.Wait()` returned (the wait group reached zero). -/
  | wgWait
  /-- `Init` returns `true`: the parent process exits. -/
  | exitParent
  /-- a Go runtime `panic`. -/
  | fatal (msg : String)
  deriving DecidableEq, Repr

/-- The messages the `select` inside `waitForChildInit` can receive, in
arrival order. -/
inductive WaitMsg where
  /-- a `StartupFinishedSignal` arrives on `initChan`. -/
  | initSig
  /-- the startup timer fires (`timer.C`). -/
  | timerFire
  /-- a PID arrives on the `stopped` channel (sent by `watchChild`'s
  goroutine when some child's `Wait` returned). -/
  | stopped (spid : Int)
  deriving DecidableEq, Repr

/-- `waitForChildInit` from `zerodown.go`: loop over the incoming
messages; a readiness signal resolves to `Ready`, the timer to
`TimedOut`, and a `stopped` notification resolves to
`CrashedBeforeReady` only when it carries the awaited PID — otherwise
the loop continues. `none` means the function is still blocked after
consuming every message. -/
def waitForChildInit (pid : Int) : List WaitMsg → Option RaceOutcome
  | [] => none
  | .initSig :: _ => some .Ready
  | .timerFire :: _ => some .TimedOut
  | .stopped spid :: rest =>
    if pid = spid then some .CrashedBeforeReady else waitForChildInit pid rest

/-- `stopChild` from `zerodown.go`: a `nil` child is ignored; otherwise
log, then send `StopSignals[0]` to the child (`deliverOk` tells whether
the OS delivery succeeds); a delivery failure is only logged. Indexing
an empty `StopSignals` slice would panic in Go. -/
def stopChild (stopSignals : List Sig) (deliverOk : Int → Bool) :
    Option Int → List Event
  | none => []
  | some pid =>
    .log ("Sending stop signal to child process with PID " ++ toString pid) ::
      match stopSignals with
      | [] => [.fatal "index out of range"]
      | s :: _ =>
        .sendSignal pid s ::
          if deliverOk pid then []
          else [.log "Failed to send SIGINT to child process"]

/-- The supervisor state owned by the signal loop: the `childProcess`
and `restartCounter` package variables. -/
structure SupState where
  childProcess : Option Int
  restartCounter : Nat
  deriving DecidableEq, Repr

/-- `restart` from `zerodown.go`. `execOk`/`startOk` are the oracle
outcomes of `os.Executable()` and `cmd.Start()`; on failure the error is
returned with no state change and no events. On success: the child is
spawned, `watchChild` adds it to the wait group, the child becomes
current and the counter increments, then `waitForChildInit` runs the
readiness race on `msgs`, and once it resolves the old child is stopped
via `stopChild`. If the race never resolves the trace ends there
(the function is still blocked). Returns (error, new state, events). -/
def restart (stopSignals : List Sig) (st : SupState) (execOk startOk : Bool)
    (newPid : Int) (msgs : List WaitMsg) (deliverOk : Int → Bool) :
    Option String × SupState × List Event :=
  if !execOk then (some "failed to get executable name", st, [])
  else if !startOk then (some "failed to start child process", st, [])
  else
    (none,
     { childProcess := some newPid, restartCounter := st.restartCounter + 1 },
     .spawn newPid :: .wgAdd :: .setCurrent newPid ::
       match waitForChildInit newPid msgs with
       | some o => .raceResolved newPid o :: stopChild stopSignals deliverOk st.childProcess
       | none => [])

/-- The `StopSignals` branch of `Init`'s signal loop: log, send the stop
signal to the current child via `stopChild`, block on
`shutdownWG.Wait()`, log, and return `true` (parent exits). -/
def initStopBranch (stopSignals : List Sig) (deliverOk : Int → Bool)
    (current : Option Int) : List Event :=
  .log "Interrupt caught. Stopping child processes..." ::
    stopChild stopSignals deliverOk current ++
      [.wgWait, .log "All child processes ended. Shutdown complete!", .exitParent]

/-- The `PassthroughSignals` branch of `Init`'s signal loop: log, and if
a current child exists forward the received signal to it; a delivery
failure is only logged. The returned `Bool` is whether the loop
continues to the next iteration (it always does). -/
def passthroughBranch (sig : Sig) (current : Option Int) (deliverOk : Bool) :
    List Event × Bool :=
  (.log "Caught signal, passing through to child" ::
     match current with
     | none => []
     | some pid =>
       .sendSignal pid sig ::
         if deliverOk then []
         else [.log "Failed to send signal to child process"],
   true)

/-- The role check at the top of `Init`: when `IsChild()` holds, log and
return `exit = false` so the caller proceeds with initialization;
otherwise the parent path runs (its eventual result abstracted as
`parentBranch`). -/
def InitRoleCheck (env : String → Option String) (st : GState)
    (parentBranch : GState → Bool) : Bool × GState :=
  let (c, st') := IsChild env st
  if c then (false, st') else (parentBranch st', st')

/-! ## Child-side API (`StartupFinished` in `zerodown.go`, `Restart` in
the `util.go` revision) -/

/-- Result of a child-side API call. -/
inductive CallOutcome where
  | ok
  | errReturn (msg : String)
  | panicked (msg : String)
  deriving DecidableEq, Repr

/-- `StartupFinished` from `zerodown.go`: when `parentPID != 0`, find
the parent process (`findOk`) and send it `StartupFinishedSignal`
(`deliverOk`), panicking if either fails; when `parentPID == 0` it
panics with its precondition message. -/
def StartupFinished (startupFinishedSignal : Sig) (st : GState)
    (findOk deliverOk : Bool) : CallOutcome × List Event :=
  if st.parentPID ≠ 0 then
    if !findOk then (.panicked "could not find parent process",
      [.log "Signaling to parent process that initialization is finished"])
    else if !deliverOk then (.panicked "could not signal parent process",
      [.log "Signaling to parent process that initialization is finished",
       .sendSignal st.parentPID startupFinishedSignal])
    else (.ok,
      [.log "Signaling to parent process that initialization is finished",
       .sendSignal st.parentPID startupFinishedSignal])
  else
    (.panicked "StartupFinished should not be called on the parent process itself", [])

/-- `Restart` from the `util.go` revision: when `parentPID != 0`, log
(which indexes `ReloadSignals[0]`, a Go panic on an empty slice), find
the parent process and send it `ReloadSignals[0]`, returning an error
value on failure and `nil` on success — it does not wait for the
restart to happen; when `parentPID == 0` it panics. -/
def RestartCall (reloadSignals : List Sig) (st : GState)
    (findOk deliverOk : Bool) : CallOutcome × List Event :=
  if st.parentPID ≠ 0 then
    match reloadSignals with
    | [] => (.panicked "index out of range", [])
    | s :: _ =>
      if !findOk then (.errReturn "could not find parent process",
        [.log "Sending signal to parent"])
      else if !deliverOk then (.errReturn "could not signal parent process",
        [.log "Sending signal to parent", .sendSignal st.parentPID s])
      else (.ok, [.log "Sending signal to parent", .sendSignal st.parentPID s])
  else
    (.panicked "Restart should not be called on the parent process itself", [])

/-! ## Reaper / shutdown wait group (`watchChild` in `zerodown.go`)

`watchChild` performs `shutdownWG.Add(1)` when a child is spawned and
its goroutine performs exactly one `shutdownWG.Done()` when the OS-level
`Wait` on that child returns. A parent run is abstracted as the
interleaved sequence of these two events, indexed by launch. -/

/-- Wait-group events of a parent run: `spawned i` is launch `i`'s
`shutdownWG.Add(1)` in `watchChild`; `reaped i` is the
`shutdownWG.Done()` its goroutine runs when `child.Wait()` returns. -/
inductive ReapEvent where
  | spawned (i : Nat)
  | reaped (i : Nat)
  deriving DecidableEq, Repr

/-- The value of the `shutdownWG` counter after a run: `+1` per `Add`,
`-1` per `Done`. -/
def wgCount (tr : List ReapEvent) : Int :=
  tr.foldl (fun n e => match e with | .spawned _ => n + 1 | .reaped _ => n - 1) 0

/-- The launches recorded in a run. -/
def spawnIds (tr : List ReapEvent) : List Nat :=
  tr.filterMap fun e => match e with | .spawned i => some i | .reaped _ => none

/-- The completed OS-level waits recorded in a run. -/
def reapIds (tr : List ReapEvent) : List Nat :=
  tr.filterMap fun e => match e with | .spawned _ => none | .reaped i => some i

/-- Well-formed parent run: each launch is recorded at most once
(`watchChild` is called once per `cmd.Start`), and each launch's `Done`
runs at most once and only for a launch that happened (the goroutine in
`watchChild` calls `Done` exactly once, after its child's `Wait`
returns). -/
def WFRun (tr : List ReapEvent) : Prop :=
  (∀ i, (spawnIds tr).count i ≤ 1) ∧
  (∀ i, (reapIds tr).count i ≤ (spawnIds tr).count i)

/-! ## Launcher (`restart` lines building `cmd` in `zerodown.go`) -/

/-- `combineSlices` from `util.go`: preallocate the total length and
copy every slice's elements in order — i.e. concatenation in order. -/
def combineSlices (slices : List (List α)) : List α :=
  slices.foldl (fun acc s => acc ++ s) []

/-- The ambient process values `restart` reads: `os.Executable()`,
`os.Args`, `os.Environ()`, `os.Getpid()`, and the standard streams. -/
structure OsEnv where
  executable : String
  args : List String
  environ : List String
  pid : Int
  stdinFd : Int
  stdoutFd : Int
  stderrFd : Int

/-- The `exec.Cmd` fields `restart` sets before `cmd.Start()`. -/
structure Cmd where
  path : String
  args : List String
  env : List String
  stdinFd : Int
  stdoutFd : Int
  stderrFd : Int
  extraFiles : List Int
  deriving DecidableEq, Repr

/-- The command `restart` constructs: the parent's own executable with
`os.Args[1:]`, environment `combineSlices` of the `PD_PARENT_PROCESS`
marker, `os.Environ()` and `ExtraVariables`, the parent's standard
streams, and `ExtraFiles`. -/
def buildChildCmd (os : OsEnv) (extraVariables : List String)
    (extraFiles : List Int) : Cmd :=
  { path := os.executable
    args := os.args.drop 1
    env := combineSlices
      [["PD_PARENT_PROCESS=" ++ toString os.pid], os.environ, extraVariables]
    stdinFd := os.stdinFd
    stdoutFd := os.stdoutFd
    stderrFd := os.stderrFd
    extraFiles := extraFiles }

/-! ## `PassthroughSockets` (`util.go`) -/

/-- `os.NewFile` as used by `PassthroughSockets`, per its documented
contract assumed by the source (`The NewFile function returns nil when a
file is not found`): `some fd` when `fd` is an open descriptor of the
process, `none` otherwise. The process's open descriptors are the
finite set `fds`. -/
def newFile (fds : Finset Nat) (fd : Nat) : Option Nat :=
  if fd ∈ fds then some fd else none

/-- The loop of `PassthroughSockets`: starting at descriptor 3, append
each present descriptor to `ExtraFiles` (`acc`) and stop at the first
absent one. Fuelled; `none` means the fuel ran out before the loop
stopped. -/
def passthroughLoop (fds : Finset Nat) : Nat → Nat → List Nat → Option (List Nat)
  | 0, _, _ => none
  | fuel + 1, fd, acc =>
    match newFile fds fd with
    | some f => passthroughLoop fds fuel (fd + 1) (acc ++ [f])
    | none => some acc

/-! ## Theorems -/

/-- Helper: a signal sent by `stopChild` always goes to the child it was
given and is the head of the configured stop list. -/
theorem mem_stopChild_sendSignal {ss : List Sig} {d : Int → Bool}
    {child : Option Int} {p : Int} {sg : Sig}
    (h : Event.sendSignal p sg ∈ stopChild ss d child) :
    child = some p ∧ ss.head? = some sg := by
  cases child with
  | none => simp [stopChild] at h
  | some pid =>
    cases ss with
    | nil => simp [stopChild] at h
    | cons s rest =>
      cases hd : d pid <;> simp [stopChild, hd] at h <;>
        exact ⟨by rw [h.1], by rw [h.2]; rfl⟩

/-- Helper: `stopChild` with a nonempty stop list never panics. -/
theorem fatal_not_mem_stopChild {s : Sig} {rest : List Sig} {d : Int → Bool}
    {child : Option Int} {m : String} :
    Event.fatal m ∉ stopChild (s :: rest) d child := by
  cases child with
  | none => simp [stopChild]
  | some pid => cases hd : d pid <;> simp [stopChild, hd]

/-- C1: within one restart attempt, no signal is sent to the old child
before the readiness race has resolved: every `sendSignal` event of the
restart trace is strictly preceded by the `raceResolved` event of the
newly launched child — in particular, when the new child announces
readiness (`Ready`), the old child receives Stop strictly after that. -/
theorem c1_stop_after_race (stopSignals : List Sig) (st : SupState)
    (execOk startOk : Bool) (newPid : Int) (msgs : List WaitMsg)
    (deliverOk : Int → Bool) (i : Nat) (p : Int) (sg : Sig)
    (h : ((restart stopSignals st execOk startOk newPid msgs deliverOk).2.2).get? i
      = some (.sendSignal p sg)) :
    ∃ j o, j < i ∧
      ((restart stopSignals st execOk startOk newPid msgs deliverOk).2.2).get? j
        = some (.raceResolved newPid o) := by
  cases execOk with
  | false => simp [restart] at h
  | true =>
    cases startOk with
    | false => simp [restart] at h
    | true =>
      cases hw : waitForChildInit newPid msgs with
      | none =>
        rcases i with _ | _ | _ | i <;> simp [restart, hw] at h
      | some o =>
        rcases i with _ | _ | _ | _ | i
        · simp [restart, hw] at h
        · simp [restart, hw] at h
        · simp [restart, hw] at h
        · simp [restart, hw] at h
        · exact ⟨3, o, by omega, by simp [restart, hw]⟩

/-- Witness for C1: a concrete restart where the new child (PID 7)
announces readiness and the old child (PID 3) is then stopped; the
Stop send sits at index 5, strictly after the race resolution. -/
theorem c1_stop_after_race_witness :
    ((restart StopSignalsDefault ⟨some 3, 0⟩ true true 7 [.initSig]
        (fun _ => true)).2.2).get? 5 = some (.sendSignal 3 .SIGINT) ∧
    ∃ j o, j < 5 ∧
      ((restart StopSignalsDefault ⟨some 3, 0⟩ true true 7 [.initSig]
          (fun _ => true)).2.2).get? j = some (.raceResolved 7 o) := by
  have hsend : ((restart StopSignalsDefault ⟨some 3, 0⟩ true true 7 [.initSig]
      (fun _ => true)).2.2).get? 5 = some (.sendSignal 3 .SIGINT) := by
    simp [restart, waitForChildInit, stopChild, StopSignalsDefault]
  exact ⟨hsend, c1_stop_after_race StopSignalsDefault ⟨some 3, 0⟩ true true 7
    [.initSig] (fun _ => true) 5 3 .SIGINT hsend⟩

/-- C2: every readiness-race outcome lets the restart sequence
complete — the restart returns no error, the new child becomes the
current child handle, the race resolution is recorded, and the old
child is sent the head of the stop list; moreover a `stopped`
notification carrying a different PID does not resolve the race. -/
theorem c2_outcomes_complete (stopSignals : List Sig) (st : SupState)
    (newPid : Int) (msgs : List WaitMsg) (deliverOk : Int → Bool)
    (o : RaceOutcome) (hres : waitForChildInit newPid msgs = some o) :
    ((restart stopSignals st true true newPid msgs deliverOk).1 = none ∧
     (restart stopSignals st true true newPid msgs deliverOk).2.1.childProcess
       = some newPid ∧
     Event.raceResolved newPid o
       ∈ (restart stopSignals st true true newPid msgs deliverOk).2.2 ∧
     (∀ p s rest, st.childProcess = some p → stopSignals = s :: rest →
       Event.sendSignal p s
         ∈ (restart stopSignals st true true newPid msgs deliverOk).2.2)) ∧
    (∀ (pid spid : Int) (ms : List WaitMsg), spid ≠ pid →
      waitForChildInit pid (.stopped spid :: ms) = waitForChildInit pid ms) := by
  constructor
  · refine ⟨by simp [restart], by simp [restart], by simp [restart, hres], ?_⟩
    intro p s rest hp hs
    subst hs
    cases hd : deliverOk p <;> simp [restart, hres, hp, stopChild, hd]
  · intro pid spid ms hne
    have : ¬ pid = spid := fun h => hne h.symm
    simp [waitForChildInit, this]

/-- Witness for C2: the race for PID 7 resolves `Ready` on a readiness
signal, and the restart trace stops the old child 3 with `SIGINT`. -/
theorem c2_outcomes_complete_witness :
    waitForChildInit 7 [.initSig] = some .Ready ∧
    Event.sendSignal 3 .SIGINT ∈ (restart StopSignalsDefault ⟨some 3, 0⟩
      true true 7 [.initSig] (fun _ => true)).2.2 :=
  ⟨rfl, (c2_outcomes_complete StopSignalsDefault ⟨some 3, 0⟩ 7 [.initSig]
    (fun _ => true) .Ready rfl).1.2.2.2 3 .SIGINT [.SIGTERM, .SIGQUIT] rfl rfl⟩

/-- C4: for every value of the inherited role marker, if
`PD_PARENT_PROCESS` is present and parseable as a decimal process
identifier the role resolver classifies the process as Child and
retains the parsed identifier in `parentPID`; if it is absent or
unparseable it classifies the process as Parent and leaves the stored
identifier untouched (so none is retained from the initial `0`). -/
theorem c4_role_resolver (env : String → Option String) (st : GState) :
    (∀ s p, env "PD_PARENT_PROCESS" = some s → atoi s = some p →
      IsParent env st = (false, ⟨p⟩) ∧ IsChild env st = (true, ⟨p⟩)) ∧
    (env "PD_PARENT_PROCESS" = none →
      IsParent env st = (true, st) ∧ IsChild env st = (false, st)) ∧
    (∀ s, env "PD_PARENT_PROCESS" = some s → atoi s = none →
      IsParent env st = (true, st) ∧ IsChild env st = (false, st)) := by
  refine ⟨?_, ?_, ?_⟩
  · intro s p hs hp
    simp [IsParent, IsChild, getenv, hs, hp]
  · intro h
    have ha : atoi "" = none := by decide
    simp [IsParent, IsChild, getenv, h, ha]
  · intro s hs hp
    simp [IsParent, IsChild, getenv, hs, hp]

/-- Witness for C4: a parseable marker `"42"` yields Child with stored
identifier 42; an absent marker yields Parent with the state untouched. -/
theorem c4_role_resolver_witness :
    IsParent (fun k => if k = "PD_PARENT_PROCESS" then some "42" else none)
      initialState = (false, ⟨42⟩) ∧
    IsParent (fun _ => none) initialState = (true, initialState) :=
  ⟨((c4_role_resolver _ initialState).1 "42" 42 (by decide) (by decide)).1,
   ((c4_role_resolver (fun _ => none) initialState).2.1 rfl).1⟩

/-- C5 is false as stated: resolving the role is not side-effect free —
with marker `"42"` present, `IsParent` overwrites the stored parent
identifier, changing the supervisor state. -/
theorem c5_counterexample :
    ¬ ((IsParent (fun k => if k = "PD_PARENT_PROCESS" then some "42" else none)
        initialState).2 = initialState) := by decide

/-- C5 amended: the role resolver is a pure function of the environment
and prior state, and its only side effect is storing the parsed parent
identifier when it classifies the process as Child; when it classifies
the process as Parent it leaves all supervisor state unchanged. -/
theorem c5_amended_resolver_effect (env : String → Option String) (st : GState) :
    ((IsParent env st).1 = true → (IsParent env st).2 = st) ∧
    ((IsParent env st).1 = false →
      ∃ p, atoi (getenv env "PD_PARENT_PROCESS") = some p ∧
        (IsParent env st).2 = ⟨p⟩) := by
  cases h : atoi (getenv env "PD_PARENT_PROCESS") with
  | none => simp [IsParent, h]
  | some p => exact ⟨by simp [IsParent, h], fun _ => ⟨p, rfl, by simp [IsParent, h]⟩⟩

/-- Witness for the amended C5: with no marker, the state `⟨3⟩` is left
unchanged. -/
theorem c5_amended_resolver_effect_witness :
    (IsParent (fun _ => none) ⟨3⟩).2 = ⟨3⟩ :=
  (c5_amended_resolver_effect (fun _ => none) ⟨3⟩).1 (by decide)

/-- C10: with the role marker present as the exact string `"0"`, the
resolver classifies the process as Child (`IsChild` true, `Init`
returns `exit = false`), yet the stored parent identifier is `0`, so a
later `StartupFinished` takes the Parent-precondition branch and
panics, and `print` tags this process's log lines as parent. -/
theorem c10_zero_marker (parentBranch : GState → Bool)
    (findOk deliverOk : Bool) (sig : Sig) :
    IsChild (fun k => if k = "PD_PARENT_PROCESS" then some "0" else none)
      initialState = (true, ⟨0⟩) ∧
    InitRoleCheck (fun k => if k = "PD_PARENT_PROCESS" then some "0" else none)
      initialState parentBranch = (false, ⟨0⟩) ∧
    (StartupFinished sig ⟨0⟩ findOk deliverOk).1
      = .panicked "StartupFinished should not be called on the parent process itself" ∧
    printTag ⟨0⟩ = "Zerodown-parent" := by
  refine ⟨by decide, ?_, by simp [StartupFinished], by decide⟩
  have h : IsChild (fun k => if k = "PD_PARENT_PROCESS" then some "0" else none)
      initialState = (true, ⟨0⟩) := by decide
  simp [InitRoleCheck, h]

/-- C6: calling `StartupFinished` or `Restart` with no stored parent
identifier (`parentPID = 0`, the Parent role) panics with the
precondition message; called from a Child, `Restart` sends the first
Reload signal to the stored parent identifier and returns success
exactly when that one delivery succeeds — it involves no waiting on the
restart itself. -/
theorem c6_child_api (st : GState) (startupSig : Sig) (findOk deliverOk : Bool)
    (s : Sig) (rest : List Sig) :
    (st.parentPID = 0 →
      (StartupFinished startupSig st findOk deliverOk).1
        = .panicked "StartupFinished should not be called on the parent process itself" ∧
      (RestartCall (s :: rest) st findOk deliverOk).1
        = .panicked "Restart should not be called on the parent process itself") ∧
    (st.parentPID ≠ 0 →
      Event.sendSignal st.parentPID s ∈ (RestartCall (s :: rest) st true deliverOk).2 ∧
      ((RestartCall (s :: rest) st true deliverOk).1 = .ok ↔ deliverOk = true)) := by
  constructor
  · intro h
    simp [StartupFinished, RestartCall, h]
  · intro h
    cases deliverOk <;> simp [RestartCall, h]

/-- Witness for C6: `parentPID = 0` makes `StartupFinished` panic;
`parentPID = 5` makes `Restart` send `SIGHUP` (first Reload signal) to
process 5. -/
theorem c6_child_api_witness :
    (StartupFinished .SIGUSR1 ⟨0⟩ true true).1
      = .panicked "StartupFinished should not be called on the parent process itself" ∧
    Event.sendSignal 5 .SIGHUP ∈ (RestartCall [.SIGHUP] ⟨5⟩ true true).2 :=
  ⟨((c6_child_api ⟨0⟩ .SIGUSR1 true true .SIGHUP []).1 rfl).1,
   ((c6_child_api ⟨5⟩ .SIGUSR1 true true .SIGHUP []).2 (by decide)).1⟩

/-- C7: whenever the supervisor tells a child to exit — via `stopChild`
directly, inside a restart (retiring the old child), or in the Stop
branch of the signal loop — the signal sent is exactly the first entry
of the configured Stop set and targets the recorded child; delivery
failure produces a log line and never a panic, and a Passthrough
delivery failure likewise leaves the loop running with no panic. -/
theorem c7_stop_signal_policy (s : Sig) (rest : List Sig)
    (deliverOk : Int → Bool) (child : Option Int) :
    (∀ p sg, Event.sendSignal p sg ∈ stopChild (s :: rest) deliverOk child →
      sg = s ∧ child = some p) ∧
    (∀ m, Event.fatal m ∉ stopChild (s :: rest) deliverOk child) ∧
    (∀ p, child = some p → deliverOk p = false →
      Event.log "Failed to send SIGINT to child process"
        ∈ stopChild (s :: rest) deliverOk child) ∧
    (∀ st eo so np msgs p sg,
      Event.sendSignal p sg ∈ (restart (s :: rest) st eo so np msgs deliverOk).2.2 →
      sg = s ∧ st.childProcess = some p) ∧
    (∀ m, Event.fatal m ∉ initStopBranch (s :: rest) deliverOk child) ∧
    (∀ sig d, (passthroughBranch sig child d).2 = true ∧
      (d = false → child ≠ none →
        Event.log "Failed to send signal to child process"
          ∈ (passthroughBranch sig child d).1) ∧
      ∀ m, Event.fatal m ∉ (passthroughBranch sig child d).1) := by
  refine ⟨?_, fun m => fatal_not_mem_stopChild, ?_, ?_, ?_, ?_⟩
  · intro p sg h
    have := mem_stopChild_sendSignal h
    exact ⟨by simpa using this.2.symm, this.1⟩
  · intro p hp hd
    subst hp
    simp [stopChild, hd]
  · intro st eo so np msgs p sg h
    cases eo with
    | false => simp [restart] at h
    | true =>
      cases so with
      | false => simp [restart] at h
      | true =>
        cases hw : waitForChildInit np msgs with
        | none => simp [restart, hw] at h
        | some o =>
          simp [restart, hw] at h
          have := mem_stopChild_sendSignal h
          exact ⟨by simpa using this.2.symm, this.1⟩
  · intro m hmem
    simp only [initStopBranch, List.mem_cons, List.mem_append] at hmem
    rcases hmem with (h | h) | h
    · exact absurd h (by simp)
    · exact fatal_not_mem_stopChild h
    · simp at h
  · intro sig d
    refine ⟨rfl, ?_, ?_⟩
    · intro hd hc
      cases child with
      | none => exact absurd rfl hc
      | some pid => subst hd; simp [passthroughBranch]
    · intro m
      cases child with
      | none => simp [passthroughBranch]
      | some pid => cases d <;> simp [passthroughBranch]

/-- Witness for C7: with the default Stop set, stopping child 4 under a
failing delivery sends exactly `SIGINT` and logs the failure. -/
theorem c7_stop_signal_policy_witness :
    Event.sendSignal 4 .SIGINT
      ∈ stopChild [Sig.SIGINT, .SIGTERM, .SIGQUIT] (fun _ => false) (some 4) ∧
    Event.log "Failed to send SIGINT to child process"
      ∈ stopChild [Sig.SIGINT, .SIGTERM, .SIGQUIT] (fun _ => false) (some 4) := by
  have h : Event.sendSignal 4 .SIGINT
      ∈ stopChild [Sig.SIGINT, .SIGTERM, .SIGQUIT] (fun _ => false) (some 4) := by
    simp [stopChild]
  exact ⟨h, (c7_stop_signal_policy .SIGINT [.SIGTERM, .SIGQUIT]
    (fun _ => false) (some 4)).2.2.1 4 rfl rfl⟩

/-- C9: every launch runs the parent's own executable with the parent's
arguments minus the program name, inherits the standard streams
unmodified, appends the caller-supplied extra file descriptors, and
passes an environment made of the marker entry carrying the parent's
process identifier, the inherited environment, and the caller-supplied
extra entries. -/
theorem c9_launch_command (os : OsEnv) (extraVariables : List String)
    (extraFiles : List Int) :
    (buildChildCmd os extraVariables extraFiles).path = os.executable ∧
    (buildChildCmd os extraVariables extraFiles).args = os.args.drop 1 ∧
    (buildChildCmd os extraVariables extraFiles).env
      = ("PD_PARENT_PROCESS=" ++ toString os.pid) :: (os.environ ++ extraVariables) ∧
    (buildChildCmd os extraVariables extraFiles).stdinFd = os.stdinFd ∧
    (buildChildCmd os extraVariables extraFiles).stdoutFd = os.stdoutFd ∧
    (buildChildCmd os extraVariables extraFiles).stderrFd = os.stderrFd ∧
    (buildChildCmd os extraVariables extraFiles).extraFiles = extraFiles := by
  simp [buildChildCmd, combineSlices]

/-- Helper: the wait-group counter equals the number of `Add`s minus
the number of `Done`s of a run. -/
theorem wgCount_eq_lengths (tr : List ReapEvent) :
    wgCount tr = ((spawnIds tr).length : Int) - ((reapIds tr).length : Int) := by
  suffices h : ∀ (l : List ReapEvent) (n : Int),
      l.foldl (fun n e => match e with | .spawned _ => n + 1 | .reaped _ => n - 1) n
        = n + ((spawnIds l).length : Int) - ((reapIds l).length : Int) by
    simpa [wgCount] using h tr 0
  intro l
  induction l with
  | nil => intro n; simp [spawnIds, reapIds]
  | cons e t ih =>
    intro n
    cases e with
    | spawned i =>
      simp only [List.foldl_cons, ih, spawnIds, reapIds, List.filterMap_cons,
        List.length_cons]
      push_cast
      ring
    | reaped i =>
      simp only [List.foldl_cons, ih, spawnIds, reapIds, List.filterMap_cons,
        List.length_cons]
      push_cast
      ring

/-- Helper: in a well-formed run no launch is recorded twice. -/
theorem spawnIds_nodup {tr : List ReapEvent} (hwf : WFRun tr) :
    (spawnIds tr).Nodup :=
  List.nodup_iff_count_le_one.mpr hwf.1

/-- Helper: in a well-formed run no completed wait is recorded twice. -/
theorem reapIds_nodup {tr : List ReapEvent} (hwf : WFRun tr) :
    (reapIds tr).Nodup :=
  List.nodup_iff_count_le_one.mpr fun i => le_trans (hwf.2 i) (hwf.1 i)

/-- Helper: every completed wait belongs to a recorded launch. -/
theorem reap_subset_spawn {tr : List ReapEvent} (hwf : WFRun tr) :
    (reapIds tr).toFinset ⊆ (spawnIds tr).toFinset := by
  intro i hi
  rw [List.mem_toFinset] at hi ⊢
  have h1 : 0 < (reapIds tr).count i := List.count_pos_iff.mpr hi
  exact List.count_pos_iff.mp (lt_of_lt_of_le h1 (hwf.2 i))

/-- C3: over every well-formed run, the shutdown wait group counts
exactly the launched-but-not-yet-waited children — each spawn adds one,
each completed OS-level wait removes one, none double-counted or lost —
so it is never negative and reaches zero exactly when every launched
child's wait has completed; and the Stop branch of the signal loop
places its `shutdownWG.Wait()` immediately before the parent's exit. -/
theorem c3_waitgroup_accounting (tr : List ReapEvent) (hwf : WFRun tr) :
    wgCount tr
      = ((spawnIds tr).toFinset.card : Int) - ((reapIds tr).toFinset.card : Int) ∧
    (reapIds tr).toFinset ⊆ (spawnIds tr).toFinset ∧
    0 ≤ wgCount tr ∧
    (wgCount tr = 0 ↔ (spawnIds tr).toFinset = (reapIds tr).toFinset) ∧
    (∀ (ss : List Sig) (d : Int → Bool) (cur : Option Int), ∃ pre,
      initStopBranch ss d cur = pre ++
        [Event.wgWait, Event.log "All child processes ended. Shutdown complete!",
         Event.exitParent]) := by
  have hsub := reap_subset_spawn hwf
  have hs : (spawnIds tr).toFinset.card = (spawnIds tr).length :=
    List.toFinset_card_of_nodup (spawnIds_nodup hwf)
  have hr : (reapIds tr).toFinset.card = (reapIds tr).length :=
    List.toFinset_card_of_nodup (reapIds_nodup hwf)
  have hcount := wgCount_eq_lengths tr
  have hcard : (reapIds tr).toFinset.card ≤ (spawnIds tr).toFinset.card :=
    Finset.card_le_card hsub
  refine ⟨by rw [hs, hr]; exact hcount, hsub, by omega, ?_, ?_⟩
  · constructor
    · intro h0
      have : (spawnIds tr).toFinset.card ≤ (reapIds tr).toFinset.card := by omega
      exact (Finset.eq_of_subset_of_card_le hsub this).symm
    · intro hset
      have : (reapIds tr).toFinset.card = (spawnIds tr).toFinset.card := by
        rw [hset]
      omega
  · exact fun ss d cur => ⟨_, rfl⟩

/-- Witness for C3: a run that launches children 0 and 1 and completes
both waits is well formed and brings the wait group back to zero. -/
theorem c3_waitgroup_accounting_witness :
    WFRun [ReapEvent.spawned 0, .spawned 1, .reaped 0, .reaped 1] ∧
    wgCount [ReapEvent.spawned 0, .spawned 1, .reaped 0, .reaped 1] = 0 := by
  have hwf : WFRun [ReapEvent.spawned 0, .spawned 1, .reaped 0, .reaped 1] := by
    constructor <;> intro i <;>
      by_cases h0 : i = 0 <;> by_cases h1 : i = 1 <;>
        simp [spawnIds, reapIds, h0, h1, List.count_cons, List.count_nil]
  refine ⟨hwf, ?_⟩
  exact ((c3_waitgroup_accounting _ hwf).2.2.2.1).mpr (by decide)

/-- Helper: when descriptors `fd, …, fd+n-1` are open and `fd+n` is
absent, the `PassthroughSockets` loop stops at `fd+n`, having appended
exactly the contiguous run. -/
theorem passthroughLoop_run (fds : Finset Nat) :
    ∀ (n fd : Nat) (acc : List Nat) (fuel : Nat), n < fuel →
      (∀ m, m < n → fd + m ∈ fds) → fd + n ∉ fds →
      passthroughLoop fds fuel fd acc = some (acc ++ List.range' fd n) := by
  intro n
  induction n with
  | zero =>
    intro fd acc fuel hfuel _ habs
    cases fuel with
    | zero => omega
    | succ k =>
      have h : fd ∉ fds := by simpa using habs
      simp [passthroughLoop, newFile, h]
  | succ n ih =>
    intro fd acc fuel hfuel hmem habs
    cases fuel with
    | zero => omega
    | succ k =>
      have h0 : fd ∈ fds := by simpa using hmem 0 (Nat.succ_pos n)
      have hrec := ih (fd + 1) (acc ++ [fd]) k (by omega)
        (fun m hm => by
          have h := hmem (m + 1) (by omega)
          have he : fd + (m + 1) = fd + 1 + m := by omega
          rwa [he] at h)
        (by
          have he : fd + 1 + n = fd + (n + 1) := by omega
          rwa [he])
      simp [passthroughLoop, newFile, h0, hrec, List.range'_succ]

/-- C8: for every starting process state (every finite set of open
descriptors) the `PassthroughSockets` loop terminates, and it collects
exactly the contiguous run of descriptors from slot 3 upward, stopping
at the first absent one. -/
theorem c8_passthrough_terminates (fds : Finset Nat) (acc : List Nat) :
    ∃ n, (∀ m, m < n → 3 + m ∈ fds) ∧ 3 + n ∉ fds ∧
      ∀ fuel, n < fuel →
        passthroughLoop fds fuel 3 acc = some (acc ++ List.range' 3 n) := by
  have hex : ∃ n, 3 + n ∉ fds := by
    refine ⟨fds.sup id + 1, fun hmem => ?_⟩
    have h2 : id (3 + (fds.sup id + 1)) ≤ fds.sup id := Finset.le_sup hmem
    simp only [id_eq] at h2
    omega
  refine ⟨Nat.find hex, fun m hm => ?_, Nat.find_spec hex, fun fuel hf => ?_⟩
  · simpa using Nat.find_min hex hm
  · exact passthroughLoop_run fds (Nat.find hex) 3 acc fuel hf
      (fun m hm => by simpa using Nat.find_min hex hm) (Nat.find_spec hex)

/-- Witness for C8: with open descriptors `{3, 4}` the loop stops at 5
and collects exactly `[3, 4]`. -/
theorem c8_passthrough_terminates_witness :
    (∃ n, (∀ m, m < n → 3 + m ∈ ({3, 4} : Finset Nat)) ∧
      3 + n ∉ ({3, 4} : Finset Nat) ∧
      ∀ fuel, n < fuel →
        passthroughLoop {3, 4} fuel 3 [] = some ([] ++ List.range' 3 n)) ∧
    passthroughLoop {3, 4} 3 3 [] = some [3, 4] :=
  ⟨c8_passthrough_terminates {3, 4} [], by decide⟩

end Zerodown
